import Mathlib

/-!
Shallow embedding of the balus V8-embedding demo
(src/samples/balus/balus-demo.cc and src/samples/balus/util.h).

The host program is embedded as pure Lean functions over an explicit
model of the surrounding world: the operating system calls made by
readFile are driven by an OS oracle recording their outcomes, and the
script engine (V8, an external collaborator of the sample) is modelled
by an Engine record carrying the outcome of Script Compile, the
TryCatch state, and the outcome of Script Run. The control flow of
main, readFile, ExecuteFile and TestString is translated line by line
from the source.
-/

namespace Balus

/-! Embedding of util.h: Result, MakeValue, MakeError. -/

/-- Result from util.h: a variant holding either a constructed value of
type T or an Error wrapping a message string. -/
inductive Result (T : Type) where
  | value (v : T)
  | error (msg : String)
deriving Repr, DecidableEq

/-- Result IsError from util.h line 31: holds_alternative of the Error
alternative. -/
def Result.IsError {T : Type} : Result T → Bool
  | Result.error _ => true
  | Result.value _ => false

/-- Result IsOK from util.h line 30: defined as the negation of IsError. -/
def Result.IsOK {T : Type} (r : Result T) : Bool :=
  !r.IsError

/-- Result GetValue from util.h lines 33-36. The source asserts IsOK and
then reads the value alternative; outside that domain the embedding
returns the default element. -/
def Result.GetValue {T : Type} [Inhabited T] : Result T → T
  | Result.value v => v
  | Result.error _ => default

/-- Result GetErrorMessage from util.h lines 37-40. The source asserts
IsError and reads the Error alternative; outside that domain the
embedding returns the empty string. -/
def Result.GetErrorMessage {T : Type} : Result T → String
  | Result.error m => m
  | Result.value _ => ""

/-- The public variadic Result constructor from util.h lines 20-24: the
arguments construct a value of type T and the variant holds it. The
embedding receives the constructed value directly. -/
def Result.ofValue {T : Type} (v : T) : Result T :=
  Result.value v

/-- MakeValue from util.h lines 54-57: forwards its arguments to the
value-constructing Result constructor. -/
def MakeValue {T : Type} (v : T) : Result T :=
  Result.ofValue v

/-- MakeError from util.h lines 59-62: builds a Result holding the Error
alternative with the given message. -/
def MakeError {T : Type} (msg : String) : Result T :=
  Result.error msg

/-! OS oracle for readFile (balus-demo.cc lines 113-132): outcomes of the
open, fstat and read system calls, and the strerror(errno) text observed
at each failure check. -/

/-- Outcomes of the system calls readFile makes, as an oracle: whether
open succeeds, the size fstat reports, the data and byte count read, and
the OS error strings strerror(errno) yields at the two failure checks. -/
structure OS where
  openOk : Bool
  openErrStr : String
  statSize : Nat
  readData : String
  nread : Int
  readErrStr : String
deriving Repr, DecidableEq

/-- One system call issued by readFile, recorded in order. -/
inductive Syscall where
  | openCall (path : String)
  | fstatCall
  | readCall (count : Nat)
  | closeCall
deriving Repr, DecidableEq

/-- readFile from balus-demo.cc lines 113-132: open the path; on failure
return MakeError(strerror(errno)). Otherwise fstat, resize the buffer to
st_size, read st_size bytes; if the count read differs from st_size,
close and return MakeError(strerror(errno)); otherwise close and return
the text. The second component records the system calls issued. -/
def readFile (os : OS) (path : String) : Result String × List Syscall :=
  if os.openOk = false then
    (MakeError os.openErrStr, [Syscall.openCall path])
  else if os.nread ≠ (os.statSize : Int) then
    (MakeError os.readErrStr,
      [Syscall.openCall path, Syscall.fstatCall,
       Syscall.readCall os.statSize, Syscall.closeCall])
  else
    (Result.value os.readData,
      [Syscall.openCall path, Syscall.fstatCall,
       Syscall.readCall os.statSize, Syscall.closeCall])

/-! Engine model: the outcomes delivered by the script engine for the
Compile and Run calls in main (balus-demo.cc lines 79-89). -/

/-- A compile-time diagnostic as the engine holds it: the exception
message text together with the source position. The host code reads only
the message (via Utf8Value of tryCatch.Exception() at line 83). -/
structure Diagnostic where
  message : String
  line : Nat
  column : Nat
deriving Repr, DecidableEq

/-- Outcomes the engine delivers to main: whether Script Compile
returned a script, the TryCatch state after compilation, and the value
Script Run produced (none when the script threw). -/
structure Engine where
  compiled : Bool
  caught : Option Diagnostic
  runResult : Option String
deriving Repr, DecidableEq

/-- The engine API contract main relies on: when Compile returns no
script, an exception has been caught by the enclosing TryCatch. -/
def Engine.wf (e : Engine) : Prop :=
  e.compiled = false → e.caught.isSome = true

instance (e : Engine) : Decidable e.wf := by
  unfold Engine.wf
  infer_instance

/-- Outcome of reading a MaybeLocal through ToLocalChecked: the value
when present, otherwise the engine raises a fatal error and the process
aborts. -/
inductive ReadOutcome where
  | read (v : String)
  | aborted
deriving Repr, DecidableEq

/-- ToLocalChecked as applied to the Run result at balus-demo.cc line
89: an implicit checked conversion with no preceding status check; an
absent value aborts the process. -/
def toLocalChecked : Option String → ReadOutcome
  | some v => ReadOutcome.read v
  | none => ReadOutcome.aborted

/-- How a main invocation ends: a normal exit with a code, or a process
abort raised by a failed checked conversion. -/
inductive Outcome where
  | exit (code : Int)
  | abort
deriving Repr, DecidableEq

/-- The world one invocation of main runs in: the argument count, the
program path argv[0], the script path argv[1], the OS oracle for
readFile, and the engine outcomes. -/
structure Env where
  argc : Nat
  argv0 : String
  argv1 : String
  os : OS
  engine : Engine
deriving Repr, DecidableEq

/-- main from balus-demo.cc lines 34-101. If argc < 2, print usage to
standard error and return -1. Read the script file; on error print
"Failed to read " followed by argv[0] and the error message, return -1.
Compile; on failure print the caught exception message (only when the
TryCatch has caught one) and return -1. Run the script and read the
result with ToLocalChecked; on success return 0. The second component
is the ordered list of lines printed to standard error. -/
def main (env : Env) : Outcome × List String :=
  if env.argc < 2 then
    (Outcome.exit (-1), ["usage:" ++ env.argv0 ++ " path"])
  else
    let maybeCode := (readFile env.os env.argv1).1
    if maybeCode.IsError then
      (Outcome.exit (-1),
        ["Failed to read " ++ env.argv0 ++ ": " ++ maybeCode.GetErrorMessage])
    else
      match env.engine.compiled, env.engine.caught with
      | false, some ex =>
          (Outcome.exit (-1),
            ["Failed to compile" ++ env.argv0 ++ ": " ++ ex.message])
      | false, none => (Outcome.exit (-1), [])
      | true, _ =>
          match toLocalChecked env.engine.runResult with
          | ReadOutcome.aborted => (Outcome.abort, [])
          | ReadOutcome.read _ => (Outcome.exit 0, [])

/-! Embedding of the native callbacks ExecuteFile and TestString
(balus-demo.cc lines 134-223) and of the registration sequence in main
(lines 60-69). Engine-internal string queries that are not part of this
sample are modelled from the spec where noted. -/

/-- A script string as the engine holds it: the sequence of its UTF-16
code units (all strings exercised here lie in the basic plane, where
code units and code points coincide). -/
abbrev JSString := List Nat

/-- A script value handed to a native callback: a tagged variant. The
callbacks here only distinguish strings from everything else. -/
inductive Value where
  | undefined
  | str (s : JSString)
deriving Repr, DecidableEq

/-- The UTF-8 byte length of one basic-plane code unit. -/
def utf8LenUnit (c : Nat) : Nat :=
  if c < 0x80 then 1 else if c < 0x800 then 2 else 3

/-- Modelled from the spec: the engine's Utf8Length query (the V8
String implementation is not under src/). Section 4.5: the byte length
always reflects the post-conversion UTF-8 size, the sum of the byte
lengths of the characters. -/
def utf8Length (s : JSString) : Nat :=
  (s.map utf8LenUnit).sum

/-- Modelled from the spec: the engine's IsOneByte query (the V8 String
implementation is not under src/). Section 4.5 distinguishes one-byte
from two-byte internal representations, and the section 8 scenario
classifies the string holding the single two-byte code unit 0xE9 as not
one-byte: a string is one-byte exactly when every code unit fits in one
UTF-8 byte. -/
def isOneByte (s : JSString) : Bool :=
  s.all (fun c => c < 0x80)

/-- Modelled from the spec: the engine's ContainsOnlyOneByte query (the
V8 String implementation is not under src/). Section 4.5: the query
whether every character of the string is representable in one byte. -/
def containsOnlyOneByte (s : JSString) : Bool :=
  s.all (fun c => c < 0x100)

/-- The ToString(context) conversion applied to the first argument at
balus-demo.cc line 161: string values convert to themselves; undefined
converts to the string "undefined". -/
def toStringConv : Value → Option JSString
  | Value.str s => some s
  | Value.undefined => some [117, 110, 100, 101, 102, 105, 110, 101, 100]

/-- The kind of script exception a native callback throws. -/
inductive ExnKind where
  | typeError
deriving Repr, DecidableEq

/-- The diagnostic record TestString prints at balus-demo.cc lines
170-175: the IsOneByte, ContainsOnlyOneByte, Length and Utf8Length
queries on the converted string. -/
structure StringDump where
  isOneByte : Bool
  containsOnlyOneByte : Bool
  length : Nat
  utf8Length : Nat
deriving Repr, DecidableEq

/-- What one native callback invocation does, as observed by the script
and the host: throw a script exception and return, return normally, or
print a string dump and return. -/
inductive CallbackEffect where
  | thrown (kind : ExnKind) (msg : String)
  | returned
  | dumped (d : StringDump)
deriving Repr, DecidableEq

/-- The exception message ExecuteFile throws at balus-demo.cc lines
140-142 (the two adjacent C string literals concatenated). -/
def executeFileNoArgMsg : String :=
  "Failed to execute \x27ExecuteFile\x27: expect 1 parameter, but only 0 presents."

/-- The exception message TestString throws for zero arguments at
balus-demo.cc lines 154-156. -/
def testStringNoArgMsg : String :=
  "Failed to execute \x27TestString\x27: expect 1 parameter, but only 0 presents."

/-- The exception message TestString throws when the argument does not
convert to a string, balus-demo.cc lines 163-165. -/
def testStringConvMsg : String :=
  "Failed to execute \x27TestString\x27: the provided value cannot be converted to \x27string\x27"

/-- ExecuteFile from balus-demo.cc lines 134-145: with zero arguments it
throws a TypeError script exception with the fixed message and returns;
otherwise it returns without doing anything (the argument is unused). -/
def ExecuteFile (args : List Value) : CallbackEffect :=
  if args.length = 0 then
    CallbackEffect.thrown ExnKind.typeError executeFileNoArgMsg
  else
    CallbackEffect.returned

/-- TestString from balus-demo.cc lines 147-223: with zero arguments it
throws a TypeError; if the first argument does not convert to a string
it throws a TypeError; otherwise it prints the diagnostic dump of the
converted string and returns. -/
def TestString (args : List Value) : CallbackEffect :=
  match args with
  | [] => CallbackEffect.thrown ExnKind.typeError testStringNoArgMsg
  | a :: _ =>
      match toStringConv a with
      | none => CallbackEffect.thrown ExnKind.typeError testStringConvMsg
      | some s =>
          CallbackEffect.dumped
            { isOneByte := isOneByte s
              containsOnlyOneByte := containsOnlyOneByte s
              length := s.length
              utf8Length := utf8Length s }

/-- The type of a native callback as the registry binds it. -/
abbrev NativeFn := List Value → CallbackEffect

/-- The registration sequence from balus-demo.cc lines 68-69: the
ordered name-to-callback bindings registerFunc installs on the context
global object. -/
def registeredGlobals : List (String × NativeFn) :=
  [("ExecuteFile", ExecuteFile), ("TestString", TestString)]

/-! Concrete environments used by witnesses and counterexamples. -/

/-- An OS oracle for a successful five-byte read. -/
def osOk : OS :=
  { openOk := true, openErrStr := "", statSize := 5,
    readData := "1 + 2", nread := 5, readErrStr := "" }

/-- An OS oracle where open fails with ENOENT. -/
def osOpenFail : OS :=
  { openOk := false, openErrStr := "No such file or directory",
    statSize := 0, readData := "", nread := 0, readErrStr := "" }

/-- An OS oracle where read returns fewer bytes than fstat reported. -/
def osShortRead : OS :=
  { openOk := true, openErrStr := "", statSize := 5,
    readData := "1 +", nread := 3, readErrStr := "Input/output error" }

/-- An engine that compiles and runs the script to the value 3. -/
def engineOk : Engine :=
  { compiled := true, caught := none, runResult := some "3" }

/-- An engine where the script throws an uncaught exception at run time:
Compile succeeds, Run returns no value. -/
def engineRunThrow : Engine :=
  { compiled := true, caught := none, runResult := none }

/-- A fully successful environment: two arguments, readable file,
compiling and running script. -/
def envOk : Env :=
  { argc := 2, argv0 := "./balus-demo", argv1 := "a.js",
    os := osOk, engine := engineOk }

/-- An environment whose script throws an uncaught run-time exception. -/
def envRunThrow : Env :=
  { argc := 2, argv0 := "./balus-demo", argv1 := "throws.js",
    os := osOk, engine := engineRunThrow }

/-- A second environment whose script throws an uncaught run-time
exception, exercising the unguarded read of the Run result. -/
def envUnguarded : Env :=
  { argc := 2, argv0 := "./demo", argv1 := "boom.js",
    os := osOk, engine := engineRunThrow }

/-- A compile-failure environment whose diagnostic sits at line 1,
column 1. -/
def envSyntaxErrA : Env :=
  { argc := 2, argv0 := "./balus-demo", argv1 := "bad.js", os := osOk,
    engine := { compiled := false,
                caught := some { message := "SyntaxError: Unexpected token", line := 1, column := 1 },
                runResult := none } }

/-- The same compile-failure environment except that the diagnostic sits
at line 7, column 3. -/
def envSyntaxErrB : Env :=
  { argc := 2, argv0 := "./balus-demo", argv1 := "bad.js", os := osOk,
    engine := { compiled := false,
                caught := some { message := "SyntaxError: Unexpected token", line := 7, column := 3 },
                runResult := none } }

/-- An environment whose script file cannot be opened. -/
def envReadFail : Env :=
  { argc := 2, argv0 := "./balus-demo", argv1 := "missing.js",
    os := osOpenFail, engine := engineOk }

end Balus

namespace Balus

/-! Theorems settling the claims. -/

/-- C1: For every invocation of the CLI, under the engine API contract
that a failed compilation leaves a caught exception: the process exits
with code 0 when the script runs successfully; it exits with code -1
when the positional argument is missing, when the script file cannot be
read, or when compilation fails; and in each of these failure cases a
diagnostic line is printed to standard error. -/
theorem cli_exit_codes (env : Env) (hwf : env.engine.wf) :
    (env.argc < 2 →
      (main env).1 = Outcome.exit (-1) ∧ (main env).2 ≠ []) ∧
    (2 ≤ env.argc → (readFile env.os env.argv1).1.IsError = true →
      (main env).1 = Outcome.exit (-1) ∧ (main env).2 ≠ []) ∧
    (2 ≤ env.argc → (readFile env.os env.argv1).1.IsError = false →
      env.engine.compiled = false →
      (main env).1 = Outcome.exit (-1) ∧ (main env).2 ≠ []) ∧
    (2 ≤ env.argc → (readFile env.os env.argv1).1.IsError = false →
      env.engine.compiled = true → env.engine.runResult.isSome = true →
      (main env).1 = Outcome.exit 0) := by
  refine ⟨?_, ?_, ?_, ?_⟩
  · intro h1
    constructor <;> simp [main, h1]
  · intro h1 h2
    constructor <;> simp [main, Nat.not_lt.mpr h1, h2]
  · intro h1 h2 h3
    obtain ⟨d, hd⟩ := Option.isSome_iff_exists.mp (hwf h3)
    constructor <;> simp [main, Nat.not_lt.mpr h1, h2, h3, hd]
  · intro h1 h2 h3 h4
    obtain ⟨v, hv⟩ := Option.isSome_iff_exists.mp h4
    simp [main, Nat.not_lt.mpr h1, h2, h3, hv, toLocalChecked]

/-- C1 witness: in the concrete fully successful environment main exits
0, and in the concrete unreadable-file environment main exits -1 and
prints a diagnostic. -/
theorem cli_exit_codes_witness :
    (main envOk).1 = Outcome.exit 0 ∧
    ((main envReadFail).1 = Outcome.exit (-1) ∧ (main envReadFail).2 ≠ []) :=
  ⟨(cli_exit_codes envOk (by decide)).2.2.2 (by decide) (by decide) rfl rfl,
   (cli_exit_codes envReadFail (by decide)).2.1 (by decide) (by decide)⟩

/-- C2 counterexample: in the concrete environment envRunThrow the
script throws an uncaught exception (the Run result is absent), yet
main aborts the process and prints nothing: the host neither captures
the exception as an error result nor prints the exception text nor
returns without crashing, refuting the claim at this input. -/
theorem run_throw_counterexample :
    envRunThrow.engine.runResult = none ∧
    main envRunThrow = (Outcome.abort, []) := by decide

/-- C2 amended: for every environment where the file reads and compiles
but the script throws an uncaught script-level exception (the Run
result is absent), main reads the result through the checked conversion
and the process aborts; no exception text is printed. -/
theorem run_throw_aborts (env : Env)
    (hargc : 2 ≤ env.argc)
    (hread : (readFile env.os env.argv1).1.IsError = false)
    (hcomp : env.engine.compiled = true)
    (hrun : env.engine.runResult = none) :
    main env = (Outcome.abort, []) := by
  simp [main, Nat.not_lt.mpr hargc, hread, hcomp, hrun, toLocalChecked]

/-- C2 amended witness: the amended behavior at the concrete
environment envRunThrow. -/
theorem run_throw_aborts_witness :
    main envRunThrow = (Outcome.abort, []) :=
  run_throw_aborts envRunThrow (by decide) (by decide) rfl rfl

/-- C3 counterexample: the embedding layer reads the Run result through
the implicit checked conversion with no preceding status check: in the
concrete environment envUnguarded the Run result is absent, the read is
still attempted and the process aborts, so a failed run result is read
unguarded, refuting the claim. -/
theorem unguarded_run_read_counterexample :
    envUnguarded.engine.runResult = none ∧
    toLocalChecked envUnguarded.engine.runResult = ReadOutcome.aborted ∧
    (main envUnguarded).1 = Outcome.abort := by decide

/-- C3 amended: the sole read of the Run result in main is the implicit
checked conversion ToLocalChecked, not preceded by any status check:
whenever control reaches it, main aborts exactly when the Run result is
absent, and otherwise exits 0 having read the value. -/
theorem run_read_unguarded (env : Env)
    (hargc : 2 ≤ env.argc)
    (hread : (readFile env.os env.argv1).1.IsError = false)
    (hcomp : env.engine.compiled = true) :
    (main env).1 = Outcome.abort ↔ env.engine.runResult = none := by
  rcases hr : env.engine.runResult with _ | v <;>
    simp [main, Nat.not_lt.mpr hargc, hread, hcomp, hr, toLocalChecked]

/-- C3 amended witness: the amended equivalence at the concrete
environment envUnguarded. -/
theorem run_read_unguarded_witness :
    (main envUnguarded).1 = Outcome.abort ↔
      envUnguarded.engine.runResult = none :=
  run_read_unguarded envUnguarded (by decide) (by decide) rfl

/-- C4: every invocation of ExecuteFile with zero arguments throws a
TypeError-kind script exception whose message contains the text
"expect 1 parameter", returning to script as a thrown exception rather
than crashing the host. -/
theorem executeFile_zero_args (args : List Value) (h : args.length = 0) :
    ExecuteFile args =
      CallbackEffect.thrown ExnKind.typeError executeFileNoArgMsg ∧
    ∃ pre post, executeFileNoArgMsg = pre ++ "expect 1 parameter" ++ post := by
  refine ⟨by simp [ExecuteFile, h],
    "Failed to execute \x27ExecuteFile\x27: ", ", but only 0 presents.", by decide⟩

/-- C4 witness: the zero-argument invocation at the empty argument
list. -/
theorem executeFile_zero_args_witness :
    ExecuteFile [] =
      CallbackEffect.thrown ExnKind.typeError executeFileNoArgMsg ∧
    ∃ pre post, executeFileNoArgMsg = pre ++ "expect 1 parameter" ++ post :=
  executeFile_zero_args [] rfl

/-- C5: for every OS oracle and path, readFile opens the path first;
when open succeeds it stats, reads exactly the stat-reported size and
closes; on open failure it returns an error Result carrying the OS
error string; on a read of the wrong length it returns an error Result
carrying the OS error string; otherwise it returns the contents as a
success Result. -/
theorem readFile_contract (os : OS) (path : String) :
    ((readFile os path).2.head? = some (Syscall.openCall path)) ∧
    (os.openOk = true →
      (readFile os path).2 =
        [Syscall.openCall path, Syscall.fstatCall,
         Syscall.readCall os.statSize, Syscall.closeCall]) ∧
    (os.openOk = false →
      readFile os path = (MakeError os.openErrStr, [Syscall.openCall path])) ∧
    (os.openOk = true → os.nread ≠ (os.statSize : Int) →
      (readFile os path).1 = MakeError os.readErrStr) ∧
    (os.openOk = true → os.nread = (os.statSize : Int) →
      (readFile os path).1 = Result.value os.readData) := by
  by_cases ho : os.openOk = false
  · simp [readFile, ho]
  · have ho' : os.openOk = true := by
      revert ho
      rcases os.openOk with _ | _ <;> simp
    by_cases hn : os.nread = (os.statSize : Int)
    · simp [readFile, ho', hn]
    · simp [readFile, ho', hn]

/-- C5 witness: the contract evaluated at the concrete successful
oracle, the concrete failed-open oracle and the concrete short-read
oracle. -/
theorem readFile_contract_witness :
    (readFile osOk "a.js").1 = Result.value "1 + 2" ∧
    readFile osOpenFail "a.js" =
      (MakeError "No such file or directory", [Syscall.openCall "a.js"]) ∧
    (readFile osShortRead "a.js").1 = MakeError "Input/output error" :=
  ⟨(readFile_contract osOk "a.js").2.2.2.2 rfl (by decide),
   (readFile_contract osOpenFail "a.js").2.2.1 rfl,
   (readFile_contract osShortRead "a.js").2.2.2.1 rfl (by decide)⟩

/-- C6 counterexample: two concrete compile-failure environments whose
engine diagnostics share the message but differ in line and column
produce identical observable behavior from main, so the line and column
of the engine diagnostic are not captured or reported to the caller,
refuting the claim that the (message, line, column) diagnostic is
captured and reported. -/
theorem compile_diag_counterexample :
    envSyntaxErrA.engine.caught ≠ envSyntaxErrB.engine.caught ∧
    main envSyntaxErrA = main envSyntaxErrB ∧
    main envSyntaxErrA =
      (Outcome.exit (-1),
        ["Failed to compile./balus-demo: SyntaxError: Unexpected token"]) := by
  decide

/-- C6 amended: on a compile failure whose caught diagnostic is d, main
captures only the message of d: it prints to standard error one line
built from argv[0] and that message, exits -1, and throws no host-level
exception; the line and column of d are discarded. -/
theorem compile_error_report (env : Env) (d : Diagnostic)
    (hargc : 2 ≤ env.argc)
    (hread : (readFile env.os env.argv1).1.IsError = false)
    (hcomp : env.engine.compiled = false)
    (hcaught : env.engine.caught = some d) :
    main env = (Outcome.exit (-1),
      ["Failed to compile" ++ env.argv0 ++ ": " ++ d.message]) := by
  simp [main, Nat.not_lt.mpr hargc, hread, hcomp, hcaught]

/-- C6 amended witness: the amended report at the concrete environment
envSyntaxErrA. -/
theorem compile_error_report_witness :
    main envSyntaxErrA =
      (Outcome.exit (-1),
        ["Failed to compile./balus-demo: SyntaxError: Unexpected token"]) :=
  (compile_error_report envSyntaxErrA
    { message := "SyntaxError: Unexpected token", line := 1, column := 1 }
    (by decide) (by decide) rfl rfl).trans (by decide)

/-- C7 counterexample: the host installs exactly two globals, named
ExecuteFile and TestString; there is no third binding, so no fetch-like
async global is installed, refuting the claim that the installed
globals are ExecuteFile, TestString and a fetch-like function. -/
theorem registered_globals_counterexample :
    registeredGlobals.map Prod.fst = ["ExecuteFile", "TestString"] ∧
    (registeredGlobals.map Prod.fst).length ≠ 3 :=
  ⟨rfl, by decide⟩

/-- C7 amended: after context setup the script-visible globals
installed by this host are exactly ExecuteFile and TestString, in that
order, each bound to its native callback, and every installed binding
is one of these two names. -/
theorem installed_globals :
    registeredGlobals.map Prod.fst = ["ExecuteFile", "TestString"] ∧
    ∀ p ∈ registeredGlobals, p.1 = "ExecuteFile" ∨ p.1 = "TestString" := by
  refine ⟨rfl, ?_⟩
  intro p hp
  simp only [registeredGlobals, List.mem_cons, List.not_mem_nil, or_false] at hp
  rcases hp with h | h
  · left
    rw [h]
  · right
    rw [h]

/-- C7 amended witness: the name of the first installed binding. -/
theorem installed_globals_witness :
    (("ExecuteFile", (ExecuteFile : NativeFn)) : String × NativeFn).1 = "ExecuteFile" ∨
    (("ExecuteFile", (ExecuteFile : NativeFn)) : String × NativeFn).1 = "TestString" :=
  installed_globals.2 ("ExecuteFile", ExecuteFile) (by simp [registeredGlobals])

/-- C8: calling TestString with the string consisting of the single
two-byte code unit 0xE9 (the letter e with acute accent) prints a
diagnostic dump reporting isOneByte false and utf8Length 2. -/
theorem testString_eacute :
    TestString [Value.str [0xE9]] =
      CallbackEffect.dumped
        { isOneByte := false, containsOnlyOneByte := true,
          length := 1, utf8Length := 2 } := by
  decide

/-- C9: every Result is exclusively a value or an error: IsOK always
returns the negation of IsError; MakeError msg yields a Result with
IsError true and GetErrorMessage msg; constructing a Result from value
arguments yields IsOK true and GetValue the constructed value. -/
theorem result_invariants (T : Type) [Inhabited T] (r : Result T)
    (msg : String) (v : T) :
    r.IsOK = !r.IsError ∧
    (MakeError msg : Result T).IsError = true ∧
    (MakeError msg : Result T).GetErrorMessage = msg ∧
    (Result.ofValue v).IsOK = true ∧
    (Result.ofValue v).GetValue = v :=
  ⟨rfl, rfl, rfl, rfl, rfl⟩

/-- C9 witness: the invariants evaluated at a concrete error Result
over Nat and a concrete constructed value. -/
theorem result_invariants_witness :
    (MakeError "boom" : Result Nat).IsError = true ∧
    (Result.ofValue (5 : Nat)).GetValue = 5 :=
  ⟨(result_invariants Nat (MakeError "boom") "boom" 5).2.1,
   (result_invariants Nat (MakeError "boom") "boom" 5).2.2.2.2⟩

/-- C10: when the script file cannot be read, the diagnostic line main
prints to standard error is built from argv[0] (the program path)
followed by the OS error string — the same line whatever argv[1] was —
and the process exits -1. -/
theorem read_fail_names_argv0 (env : Env)
    (hargc : 2 ≤ env.argc)
    (hread : (readFile env.os env.argv1).1.IsError = true) :
    main env = (Outcome.exit (-1),
      ["Failed to read " ++ env.argv0 ++ ": " ++
        (readFile env.os env.argv1).1.GetErrorMessage]) := by
  simp [main, Nat.not_lt.mpr hargc, hread]

/-- C10 witness: at the concrete environment envReadFail, whose argv[1]
is missing.js, the printed diagnostic names the program path
./balus-demo and the OS error string, not the script path. -/
theorem read_fail_names_argv0_witness :
    envReadFail.argv1 = "missing.js" ∧
    main envReadFail =
      (Outcome.exit (-1),
        ["Failed to read ./balus-demo: No such file or directory"]) :=
  ⟨rfl, (read_fail_names_argv0 envReadFail (by decide) (by decide)).trans (by decide)⟩

end Balus
